import Mathlib

/-! Synchronous Kafka producer (`messaging/kafka/client/syncproducer.go`).

A shallow embedding of the `SyncProducer` of cn-infra and theorems about its
construction, send and close operations.

Modelling conventions.

* The run is sequential: one caller, one call at a time.  The mutex of the handle is
  locked and unlocked once on every path of `Close` and `IsClosed`, so it is left out of
  the state.
* Everything the file calls but does not define (the sarama library, the configuration
  validator) is collected in `Env`.  Each library entry receives the list of library calls
  made so far, so a library answer may depend on the whole history.
* `World` is what survives a call outside the handle: the trace of library calls with
  their answers, and the counter of the wait-group of the caller.
* Go `[]byte` is `Option (List Nat)` (`none` is the nil slice, the elements are bytes),
  a Go `string` that is turned into bytes is the list of its bytes, an interface value is
  an `Option` (`none` is the nil interface), `error` is `Option GoError`.
* `int16`, `int32` and `int64` values are only stored and compared, never computed with;
  they are `Int`.
* Log output is not part of the state; `Config.Logger` is taken to be non-nil.
-/

namespace KafkaClient

/-! ## `crypto/md5` and `fmt` (Go standard library) -/

namespace md5

/-- Per-round left-rotation amounts of MD5 (RFC 1321, section 3.4). -/
def shifts : List Nat :=
  [7, 12, 17, 22, 7, 12, 17, 22, 7, 12, 17, 22, 7, 12, 17, 22,
   5, 9, 14, 20, 5, 9, 14, 20, 5, 9, 14, 20, 5, 9, 14, 20,
   4, 11, 16, 23, 4, 11, 16, 23, 4, 11, 16, 23, 4, 11, 16, 23,
   6, 10, 15, 21, 6, 10, 15, 21, 6, 10, 15, 21, 6, 10, 15, 21]

/-- The table `T[i] = floor(2^32 * |sin (i + 1)|)` of MD5 (RFC 1321, section 3.4). -/
def sines : List Nat :=
  [0xd76aa478, 0xe8c7b756, 0x242070db, 0xc1bdceee, 0xf57c0faf, 0x4787c62a, 0xa8304613, 0xfd469501,
   0x698098d8, 0x8b44f7af, 0xffff5bb1, 0x895cd7be, 0x6b901122, 0xfd987193, 0xa679438e, 0x49b40821,
   0xf61e2562, 0xc040b340, 0x265e5a51, 0xe9b6c7aa, 0xd62f105d, 0x02441453, 0xd8a1e681, 0xe7d3fbc8,
   0x21e1cde6, 0xc33707d6, 0xf4d50d87, 0x455a14ed, 0xa9e3e905, 0xfcefa3f8, 0x676f02d9, 0x8d2a4c8a,
   0xfffa3942, 0x8771f681, 0x6d9d6122, 0xfde5380c, 0xa4beea44, 0x4bdecfa9, 0xf6bb4b60, 0xbebfbc70,
   0x289b7ec6, 0xeaa127fa, 0xd4ef3085, 0x04881d05, 0xd9d4d039, 0xe6db99e5, 0x1fa27cf8, 0xc4ac5665,
   0xf4292244, 0x432aff97, 0xab9423a7, 0xfc93a039, 0x655b59c3, 0x8f0ccc92, 0xffeff47d, 0x85845dd1,
   0x6fa87e4f, 0xfe2ce6e0, 0xa3014314, 0x4e0811a1, 0xf7537e82, 0xbd3af235, 0x2ad7d2bb, 0xeb86d391]

/-- All-ones 32-bit word; `x ^^^ mask32` is the 32-bit complement of `x`. -/
def mask32 : Nat := 0xffffffff

/-- Rotate the 32-bit word `x` left by `c` bits. -/
def rotl (x c : Nat) : Nat := ((x <<< c) ||| (x >>> (32 - c))) % 2 ^ 32

/-- The four 32-bit chaining words of MD5. -/
structure State where
  a : Nat
  b : Nat
  c : Nat
  d : Nat
deriving DecidableEq, Repr

/-- Initial chaining value (RFC 1321, section 3.3). -/
def init : State := { a := 0x67452301, b := 0xefcdab89, c := 0x98badcfe, d := 0x10325476 }

/-- Operation number `i` (0 to 63) on the sixteen message words `M`. -/
def round (M : List Nat) (st : State) (i : Nat) : State :=
  let f :=
    if i < 16 then (st.b &&& st.c) ||| ((st.b ^^^ mask32) &&& st.d)
    else if i < 32 then (st.d &&& st.b) ||| ((st.d ^^^ mask32) &&& st.c)
    else if i < 48 then st.b ^^^ st.c ^^^ st.d
    else st.c ^^^ (st.b ||| (st.d ^^^ mask32))
  let g :=
    if i < 16 then i
    else if i < 32 then (5 * i + 1) % 16
    else if i < 48 then (3 * i + 5) % 16
    else (7 * i) % 16
  let t := (f + st.a + sines.getD i 0 + M.getD g 0) % 2 ^ 32
  { a := st.d, b := (st.b + rotl t (shifts.getD i 0)) % 2 ^ 32, c := st.b, d := st.c }

/-- Process one 16-word block. -/
def block (M : List Nat) (st : State) : State :=
  let r := (List.range 64).foldl (round M) st
  { a := (st.a + r.a) % 2 ^ 32, b := (st.b + r.b) % 2 ^ 32,
    c := (st.c + r.c) % 2 ^ 32, d := (st.d + r.d) % 2 ^ 32 }

/-- The `n` low-order bytes of `x`, least significant first. -/
def leBytes (n x : Nat) : List Nat := (List.range n).map fun i => (x >>> (8 * i)) % 256

/-- Group bytes four by four into little-endian 32-bit words. -/
def words : List Nat → List Nat
  | b0 :: b1 :: b2 :: b3 :: rest =>
      (b0 % 256 + (b1 % 256) * 2 ^ 8 + (b2 % 256) * 2 ^ 16 + (b3 % 256) * 2 ^ 24) :: words rest
  | _ => []

/-- MD5 padding: a 0x80 byte, zero bytes up to 56 modulo 64, then the bit length on
eight bytes. -/
def pad (m : List Nat) : List Nat :=
  m ++ [0x80] ++ List.replicate ((55 + 64 - m.length % 64) % 64) 0
    ++ leBytes 8 ((8 * m.length) % 2 ^ 64)

/-- Fold `block` over the word list, sixteen words at a time. -/
def blocks : Nat → List Nat → State → State
  | 0, _, st => st
  | fuel + 1, ws, st =>
      if ws.isEmpty then st else blocks fuel (ws.drop 16) (block (ws.take 16) st)

/-- Go `md5.Sum(data)`: the 16-byte MD5 digest of `data` as defined by RFC 1321.  The
function belongs to the Go standard library, which syncproducer.go imports. -/
def Sum (data : List Nat) : List Nat :=
  let ws := words (pad data)
  let st := blocks ws.length ws init
  leBytes 4 st.a ++ leBytes 4 st.b ++ leBytes 4 st.c ++ leBytes 4 st.d

end md5

/-- The bytes of an ASCII string literal, as Go stores them. -/
def goString (s : String) : List Nat := s.data.map Char.toNat

/-- Digit table of package `fmt` for lower-case verbs. -/
def ldigits : List Nat := goString "0123456789abcdefx"

/-- Go `fmt.Sprintf("%x", b)` for a byte array `b`: two lower-case hexadecimal digits per
byte, high nibble first.  The result is the byte content of the returned string. -/
def fmtSbx (b : List Nat) : List Nat :=
  b.flatMap fun c => [ldigits.getD (c >>> 4) 0, ldigits.getD (c &&& 0xF) 0]

/-! ## Data model -/

/-- Go `error` values (non-nil ones), identified by their message. -/
abbrev GoError := String

/-- Go `[]byte`; `none` is the nil slice. -/
abbrev Bytes := Option (List Nat)

/-- Go `len` on a byte slice. -/
def len (b : Bytes) : Nat := (b.getD []).length

/-- Non-nil values of the interface `sarama.Encoder`: the two implementations sarama
ships.  A nil slice wrapped in `ByteEncoder` is still a non-nil interface value. -/
inductive Encoder where
  | ByteEncoder (b : Bytes)
  | StringEncoder (s : String)
deriving DecidableEq, Repr

/-- Modelled from the spec: the declaration of the type `RequiredAcks` and of its
constants `AcksUnset`, `NoResponse`, `WaitForLocal`, `WaitForAll` is in a file that is not
among the sources.  The spec lists the four modes as an enumeration; `unknown` stands for
every value of the underlying integer type that is none of the four constants. -/
inductive RequiredAcks where
  | AcksUnset
  | NoResponse
  | WaitForLocal
  | WaitForAll
  | unknown (tag : Nat)
deriving DecidableEq, Repr

/-- Modelled from the spec: partitioner selector of the configuration (hash, random,
manual, round-robin); its declaration is not among the sources. -/
inductive Partitioner where
  | hash
  | random
  | manual
  | roundRobin
deriving DecidableEq, Repr

namespace sarama

/-- Modelled from the spec: the constant `sarama.NoResponse` (section 4.2, value 0). -/
def NoResponse : Int := 0

/-- Modelled from the spec: the constant `sarama.WaitForLocal` (section 4.2, value 1). -/
def WaitForLocal : Int := 1

/-- Modelled from the spec: the constant `sarama.WaitForAll` (section 4.2, value -1). -/
def WaitForAll : Int := -1

/-- The fields of `sarama.Config` that syncproducer.go writes: `Producer.RequiredAcks`,
`Producer.Partitioner` and `Producer.Return.Successes`. -/
structure Config where
  RequiredAcks : Int
  Partitioner : Option Partitioner
  ReturnSuccesses : Bool
deriving DecidableEq, Repr

/-- A broker client returned by `sarama.NewClient`. -/
structure Client where
  id : Nat
deriving DecidableEq, Repr

/-- A producer returned by `sarama.NewSyncProducerFromClient`. -/
structure SyncProducer where
  id : Nat
deriving DecidableEq, Repr

/-- The fields of `sarama.ProducerMessage` that syncproducer.go reads or writes. -/
structure ProducerMessage where
  Topic : String
  Key : Option Encoder
  Value : Option Encoder
  Metadata : Option String
  Offset : Int
  Partition : Int
deriving DecidableEq, Repr

/-- The three values `SyncProducer.SendMessage` of sarama returns. -/
structure SendAnswer where
  partition : Int
  offset : Int
  err : Option GoError
deriving DecidableEq, Repr

end sarama

/-- The fields of the producer configuration `Config` that syncproducer.go uses.  The
type is declared in a file that is not among the sources.  `ProducerConfig` is the
embedded sarama configuration: the method `ProducerConfig()` returns a pointer to it and
`NewSyncProducer` hands the same block to `sarama.NewClient`. -/
structure Config where
  Debug : Bool
  Brokers : List String
  RequiredAcks : RequiredAcks
  Partitioner : Partitioner
  Partition : Int
  ProducerConfig : sarama.Config
deriving DecidableEq, Repr

/-- Result record `ProducerMessage` of the client package, with the fields `SendMsg`
fills in.  The type is declared in a file that is not among the sources. -/
structure ProducerMessage where
  Topic : String
  Key : Option Encoder
  Value : Option Encoder
  Metadata : Option String
  Offset : Int
  Partition : Int
deriving DecidableEq, Repr

/-- One call into the sarama library together with what it returned. -/
inductive Call where
  | NewClient (brokers : List String) (cfg : sarama.Config) (client : Option sarama.Client)
      (err : Option GoError)
  | NewSyncProducerFromClient (client : sarama.Client) (producer : Option sarama.SyncProducer)
      (err : Option GoError)
  | ProducerClose (producer : sarama.SyncProducer) (err : Option GoError)
  | ClientClose (client : sarama.Client) (err : Option GoError)
  | SendMessage (producer : sarama.SyncProducer) (msg : sarama.ProducerMessage)
      (partition : Int) (offset : Int) (err : Option GoError)
deriving DecidableEq, Repr

/-- State outside the handle: the library calls made so far (oldest first) and the
counter of the `sync.WaitGroup` of the caller.  `Add(1)` is `+ 1` and `Done()` is `- 1`.
Go panics when the counter would drop below zero; `run_wg_ge` shows that a handle built
by `NewSyncProducer` never takes the counter below its value before the construction. -/
structure World where
  calls : List Call
  wg : Int
deriving DecidableEq, Repr

/-- Pointer to the wait-group of the caller, whose counter is `World.wg`. -/
inductive WaitGroupPtr where
  | caller
deriving DecidableEq, Repr

/-- Behaviour of the code syncproducer.go calls but does not define.  Every sarama entry
reads the calls made so far, so its answer may depend on the history.  `SendMessage`
answers with partition, offset and error; it gives the record back with `Topic`, `Key`,
`Value` and `Metadata` as it received them. -/
structure Env where
  /-- Modelled from the spec: `Config.ValidateSyncProducerConfig` is defined in a file
  that is not among the sources; section 4.1 makes it a check that returns success or a
  descriptive failure.  Which constraints it checks is left open. -/
  ValidateSyncProducerConfig : Config → Option GoError
  NewClient : List Call → List String → sarama.Config → Except GoError sarama.Client
  NewSyncProducerFromClient : List Call → sarama.Client → Except GoError sarama.SyncProducer
  ProducerClose : List Call → sarama.SyncProducer → Option GoError
  ClientClose : List Call → sarama.Client → Option GoError
  SendMessage : List Call → sarama.SyncProducer → sarama.ProducerMessage → sarama.SendAnswer

/-- The handle `SyncProducer`.  `closeChannel` counts the `close` operations executed on
the channel: the channel is open at 0 and closed from 1 on.  A Go program panics on the
second `close`; `run_closeChannel` shows the count never exceeds 1.  The embedded logger
and mutex are left out. -/
structure SyncProducer where
  Config : Config
  Client : sarama.Client
  Producer : sarama.SyncProducer
  Partition : Int
  closed : Bool
  xwg : Option WaitGroupPtr
  closeChannel : Nat
deriving DecidableEq, Repr

/-! ## Operations -/

/-- `setProducerRequiredAcks`: the configuration after the call and the returned error. -/
def setProducerRequiredAcks (cfg : Config) : Config × Option GoError :=
  match cfg.RequiredAcks with
  | RequiredAcks.NoResponse =>
      ({ cfg with ProducerConfig := { cfg.ProducerConfig with RequiredAcks := sarama.NoResponse } },
        none)
  | RequiredAcks.WaitForLocal =>
      ({ cfg with ProducerConfig := { cfg.ProducerConfig with RequiredAcks := sarama.WaitForLocal } },
        none)
  | RequiredAcks.WaitForAll =>
      ({ cfg with ProducerConfig := { cfg.ProducerConfig with RequiredAcks := sarama.WaitForAll } },
        none)
  | _ => (cfg, some "Invalid RequiredAcks type")

/-- What a call of `NewSyncProducer` leaves behind: the configuration behind the pointer
`config`, the world, and the returned pair (handle or error). -/
structure NewResult where
  config : Config
  world : World
  ret : Except GoError SyncProducer

/-- `NewSyncProducer(config, wg)`.  The logger calls (`SetLevel` under `Debug`, `Debug`,
`Debugf`) are left out. -/
def NewSyncProducer (env : Env) (config : Config) (wg : Option WaitGroupPtr) (w : World) :
    NewResult :=
  match env.ValidateSyncProducerConfig config with
  | some err => { config := config, world := w, ret := .error err }
  | none =>
    -- set "RequiredAcks" for producer
    let config1 : Config :=
      if config.RequiredAcks = RequiredAcks.AcksUnset then
        { config with RequiredAcks := RequiredAcks.WaitForAll }
      else config
    match setProducerRequiredAcks config1 with
    | (config2, some _) =>
        { config := config2, world := w, ret := .error "invalid RequiredAcks field in config" }
    | (config2, none) =>
      -- set other Producer config params
      let config3 : Config :=
        { config2 with
          ProducerConfig :=
            { config2.ProducerConfig with
              Partitioner := some config2.Partitioner, ReturnSuccesses := true } }
      -- init a new client
      match env.NewClient w.calls config3.Brokers config3.ProducerConfig with
      | .error err =>
          { config := config3,
            world :=
              { w with
                calls := w.calls ++
                  [Call.NewClient config3.Brokers config3.ProducerConfig none (some err)] },
            ret := .error err }
      | .ok client =>
        let w1 : World :=
          { w with
            calls := w.calls ++
              [Call.NewClient config3.Brokers config3.ProducerConfig (some client) none] }
        match env.NewSyncProducerFromClient w1.calls client with
        | .error err =>
            { config := config3,
              world :=
                { w1 with
                  calls := w1.calls ++ [Call.NewSyncProducerFromClient client none (some err)] },
              ret := .error err }
        | .ok producer =>
          let w2 : World :=
            { w1 with
              calls := w1.calls ++ [Call.NewSyncProducerFromClient client (some producer) none] }
          let sp : SyncProducer :=
            { Config := config3, Client := client, Producer := producer,
              Partition := config3.Partition, closed := false, xwg := none, closeChannel := 0 }
          -- if there is a "waitgroup" arg then use it
          match wg with
          | some p =>
              { config := config3, world := { w2 with wg := w2.wg + 1 },
                ret := .ok { sp with xwg := some p } }
          | none => { config := config3, world := w2, ret := .ok sp }

/-- What a call of `Close` leaves behind: the handle, the world and the returned error. -/
structure CloseResult where
  sp : SyncProducer
  world : World
  err : Option GoError
deriving DecidableEq, Repr

/-- The deferred function of `Close`; it runs on every return path, with the value to
return already fixed. -/
def Close.deferred (ref : SyncProducer) (w : World) (err : Option GoError) : CloseResult :=
  if ref.closed then
    { sp := ref, world := w, err := err }
  else
    let ref1 : SyncProducer := { ref with closed := true, closeChannel := ref.closeChannel + 1 }
    -- decrement external waitgroup
    match ref1.xwg with
    | some _ => { sp := ref1, world := { w with wg := w.wg - 1 }, err := err }
    | none => { sp := ref1, world := w, err := err }

/-- `SyncProducer.Close`.  The body runs first and fixes the value to return, then the
deferred function runs.  The logger calls are left out. -/
def SyncProducer.Close (env : Env) (ref : SyncProducer) (w : World) : CloseResult :=
  if ref.closed then
    Close.deferred ref w none
  else
    let err := env.ProducerClose w.calls ref.Producer
    let w1 : World := { w with calls := w.calls ++ [Call.ProducerClose ref.Producer err] }
    match err with
    | some e => Close.deferred ref w1 (some e)
    | none =>
      let err := env.ClientClose w1.calls ref.Client
      let w2 : World := { w1 with calls := w1.calls ++ [Call.ClientClose ref.Client err] }
      match err with
      | some e => Close.deferred ref w2 (some e)
      | none => Close.deferred ref w2 none

/-- What a send leaves behind: the world and the returned pair. -/
structure SendResult where
  world : World
  pmsg : Option ProducerMessage
  err : Option GoError
deriving DecidableEq, Repr

/-- The record `SendMsg` builds and hands to the producer. -/
def SyncProducer.message (ref : SyncProducer) (topic : String) (key msg : Option Encoder) :
    sarama.ProducerMessage :=
  let message : sarama.ProducerMessage :=
    { Topic := topic, Value := msg, Key := key, Metadata := none, Offset := 0, Partition := 0 }
  -- manual partition
  if ref.Partition > -1 then { message with Partition := ref.Partition } else message

/-- `SyncProducer.SendMsg`.  The logger calls are left out. -/
def SyncProducer.SendMsg (env : Env) (ref : SyncProducer) (topic : String)
    (key msg : Option Encoder) (w : World) : SendResult :=
  match msg with
  | none => { world := w, pmsg := none, err := some "nil message can not be sent" }
  | some _ =>
    let message := ref.message topic key msg
    let r := env.SendMessage w.calls ref.Producer message
    let w1 : World :=
      { w with
        calls := w.calls ++ [Call.SendMessage ref.Producer message r.partition r.offset r.err] }
    let pmsg : ProducerMessage :=
      { Topic := message.Topic, Key := message.Key, Value := message.Value,
        Metadata := message.Metadata, Offset := r.offset, Partition := r.partition }
    match r.err with
    | some e => { world := w1, pmsg := some pmsg, err := some e }
    | none => { world := w1, pmsg := some pmsg, err := none }

/-- `SyncProducer.SendMsgByte`.  The logger call is left out. -/
def SyncProducer.SendMsgByte (env : Env) (ref : SyncProducer) (topic : String)
    (key msg : Bytes) (w : World) : SendResult :=
  -- generate a key if none supplied (used by hash partitioner)
  if key.isNone || len key == 0 then
    let md5Sum := fmtSbx (md5.Sum (msg.getD []))
    ref.SendMsg env topic (some (Encoder.ByteEncoder (some md5Sum)))
      (some (Encoder.ByteEncoder msg)) w
  else
    ref.SendMsg env topic (some (Encoder.ByteEncoder key)) (some (Encoder.ByteEncoder msg)) w

/-- `SyncProducer.IsClosed`. -/
def SyncProducer.IsClosed (ref : SyncProducer) : Bool := ref.closed

/-- `SyncProducer.GetCloseChannel`: the state of the close channel. -/
def SyncProducer.GetCloseChannel (ref : SyncProducer) : Nat := ref.closeChannel

/-- `SyncProducer.WaitForClose`: the receive on the close channel returns once the channel
is closed (nothing is ever sent on it); `none` means the caller stays blocked. -/
def SyncProducer.WaitForClose (ref : SyncProducer) : Option Unit :=
  if 0 < ref.closeChannel then some () else none

/-- A call on an existing handle. -/
inductive Op where
  | Close
  | SendMsg (topic : String) (key msg : Option Encoder)
  | SendMsgByte (topic : String) (key msg : Bytes)
  | IsClosed
deriving DecidableEq, Repr

/-- Perform one call on the handle. -/
def step (env : Env) (s : SyncProducer × World) : Op → SyncProducer × World
  | Op.Close => ((s.1.Close env s.2).sp, (s.1.Close env s.2).world)
  | Op.SendMsg topic key msg => (s.1, (s.1.SendMsg env topic key msg s.2).world)
  | Op.SendMsgByte topic key msg => (s.1, (s.1.SendMsgByte env topic key msg s.2).world)
  | Op.IsClosed => s

/-- Perform a sequence of calls on the handle, in order. -/
def run (env : Env) (ops : List Op) (s : SyncProducer × World) : SyncProducer × World :=
  ops.foldl (step env) s

/-- The records handed to `SendMessage` in a trace, oldest first. -/
def sent : List Call → List sarama.ProducerMessage
  | [] => []
  | Call.SendMessage _ m _ _ _ :: rest => m :: sent rest
  | _ :: rest => sent rest

/-- The clients `sarama.NewClient` returned in a trace. -/
def openedClients : List Call → List sarama.Client
  | [] => []
  | Call.NewClient _ _ (some c) _ :: rest => c :: openedClients rest
  | _ :: rest => openedClients rest

/-- The clients on which `Close` was called in a trace. -/
def closedClients : List Call → List sarama.Client
  | [] => []
  | Call.ClientClose c _ :: rest => c :: closedClients rest
  | _ :: rest => closedClients rest

/-- The number of `Close` calls on producers and clients in a trace. -/
def closeCalls : List Call → Nat
  | [] => 0
  | Call.ProducerClose _ _ :: rest => closeCalls rest + 1
  | Call.ClientClose _ _ :: rest => closeCalls rest + 1
  | _ :: rest => closeCalls rest

/-! ## Sample environments and handles -/

/-- A library in which every call succeeds; sends land on partition 0 at offset 42. -/
def envOK : Env :=
  { ValidateSyncProducerConfig := fun _ => none
    NewClient := fun _ _ _ => .ok { id := 1 }
    NewSyncProducerFromClient := fun _ _ => .ok { id := 7 }
    ProducerClose := fun _ _ => none
    ClientClose := fun _ _ => none
    SendMessage := fun _ _ _ => { partition := 0, offset := 42, err := none } }

/-- A library whose producer refuses to close. -/
def envProducerCloseFails : Env :=
  { envOK with ProducerClose := fun _ _ => some "producer close failed" }

/-- A library whose client refuses to close. -/
def envClientCloseFails : Env :=
  { envOK with ClientClose := fun _ _ => some "client close failed" }

/-- A library whose sends fail; the producer reports partition -1 and offset -1. -/
def envSendFails : Env :=
  { envOK with SendMessage := fun _ _ _ =>
      { partition := -1, offset := -1, err := some "send failed" } }

/-- A library that opens the client but cannot build a producer from it. -/
def envProducerFails : Env :=
  { envOK with NewSyncProducerFromClient := fun _ _ => .error "producer construction failed" }

/-- A configuration with one broker, acks left unset and no partition override. -/
def cfg0 : Config :=
  { Debug := false, Brokers := ["b1:9092"], RequiredAcks := RequiredAcks.AcksUnset,
    Partitioner := Partitioner.hash, Partition := -1,
    ProducerConfig := { RequiredAcks := 1, Partitioner := none, ReturnSuccesses := false } }

/-- The same configuration with an acks value that is none of the named constants. -/
def cfgBadAcks : Config := { cfg0 with RequiredAcks := RequiredAcks.unknown 5 }

/-- The same configuration with partition override 3. -/
def cfg3 : Config := { cfg0 with Partition := 3 }

/-- The empty world: no library call yet, wait-group counter 0. -/
def w0 : World := { calls := [], wg := 0 }

/-- The sarama block of `cfg0` once `NewSyncProducer` has filled it in. -/
def saramaReady : sarama.Config :=
  { RequiredAcks := -1, Partitioner := some Partitioner.hash, ReturnSuccesses := true }

/-- The world after a successful construction from `w0` in `envOK`. -/
def w1 : World :=
  { calls :=
      [Call.NewClient ["b1:9092"] saramaReady (some { id := 1 }) none,
       Call.NewSyncProducerFromClient { id := 1 } (some { id := 7 }) none],
    wg := 0 }

/-- The handle `NewSyncProducer` returns for `cfg0` in `envOK` without wait-group. -/
def sp0 : SyncProducer :=
  { Config := { cfg0 with RequiredAcks := RequiredAcks.WaitForAll, ProducerConfig := saramaReady },
    Client := { id := 1 }, Producer := { id := 7 }, Partition := -1,
    closed := false, xwg := none, closeChannel := 0 }

/-- The handle `NewSyncProducer` returns for `cfg3` in `envOK`: partition override 3 and
the hash partitioner. -/
def sp3 : SyncProducer :=
  { Config := { cfg3 with RequiredAcks := RequiredAcks.WaitForAll, ProducerConfig := saramaReady },
    Client := { id := 1 }, Producer := { id := 7 }, Partition := 3,
    closed := false, xwg := none, closeChannel := 0 }

/-- The handle `NewSyncProducer` returns for `cfg0` in `envOK` with the wait-group of the
caller. -/
def spWg : SyncProducer := { sp0 with xwg := some WaitGroupPtr.caller }

/-! ## Auxiliary lemmas -/

theorem sample_construction :
    (NewSyncProducer envOK cfg0 none w0).ret = .ok sp0 ∧
    (NewSyncProducer envOK cfg0 none w0).world = w1 ∧
    (NewSyncProducer envOK cfg3 none w0).ret = .ok sp3 ∧
    (NewSyncProducer envOK cfg3 none w0).world = w1 ∧
    (NewSyncProducer envOK cfg0 (some WaitGroupPtr.caller) w0).ret = .ok spWg ∧
    (NewSyncProducer envOK cfg0 (some WaitGroupPtr.caller) w0).world = { w1 with wg := 1 } :=
  ⟨rfl, rfl, rfl, rfl, rfl, rfl⟩

theorem Close_of_closed (env : Env) (ref : SyncProducer) (w : World)
    (h : ref.closed = true) : ref.Close env w = { sp := ref, world := w, err := none } := by
  simp [SyncProducer.Close, Close.deferred, h]

theorem deferred_closed (ref : SyncProducer) (w : World) (err : Option GoError) :
    (Close.deferred ref w err).sp.closed = true := by
  unfold Close.deferred
  by_cases h : ref.closed = true
  · simp [h]
  · cases hx : ref.xwg <;> simp [h, hx]

theorem deferred_err (ref : SyncProducer) (w : World) (err : Option GoError) :
    (Close.deferred ref w err).err = err := by
  unfold Close.deferred
  by_cases h : ref.closed = true
  · simp [h]
  · cases hx : ref.xwg <;> simp [h, hx]

theorem deferred_calls (ref : SyncProducer) (w : World) (err : Option GoError) :
    (Close.deferred ref w err).world.calls = w.calls := by
  unfold Close.deferred
  by_cases h : ref.closed = true
  · simp [h]
  · cases hx : ref.xwg <;> simp [h, hx]

theorem deferred_open (ref : SyncProducer) (w : World) (err : Option GoError)
    (h : ref.closed = false) :
    (Close.deferred ref w err).sp = { ref with closed := true, closeChannel := ref.closeChannel + 1 } ∧
    (Close.deferred ref w err).world.wg = if ref.xwg.isSome then w.wg - 1 else w.wg := by
  unfold Close.deferred
  cases hx : ref.xwg <;> simp [h, hx]

theorem Close_closed (env : Env) (ref : SyncProducer) (w : World) :
    (ref.Close env w).sp.closed = true := by
  unfold SyncProducer.Close
  by_cases h : ref.closed = true
  · simp [h, deferred_closed]
  · simp only [h]
    cases env.ProducerClose w.calls ref.Producer with
    | some e => simp [deferred_closed]
    | none =>
      cases env.ClientClose (w.calls ++ [Call.ProducerClose ref.Producer none]) ref.Client <;>
        simp [deferred_closed]

theorem Close_of_open (env : Env) (ref : SyncProducer) (w : World) (h : ref.closed = false) :
    (ref.Close env w).sp = { ref with closed := true, closeChannel := ref.closeChannel + 1 } ∧
    (ref.Close env w).world.wg = if ref.xwg.isSome then w.wg - 1 else w.wg := by
  unfold SyncProducer.Close
  simp only [h]
  cases env.ProducerClose w.calls ref.Producer with
  | some e => simpa using deferred_open ref _ (some e) h
  | none =>
    cases env.ClientClose (w.calls ++ [Call.ProducerClose ref.Producer none]) ref.Client with
    | some e => simpa using deferred_open ref _ (some e) h
    | none => simpa using deferred_open ref _ none h

theorem message_fields (ref : SyncProducer) (topic : String) (key msg : Option Encoder) :
    (ref.message topic key msg).Topic = topic ∧ (ref.message topic key msg).Key = key ∧
    (ref.message topic key msg).Value = msg ∧ (ref.message topic key msg).Metadata = none ∧
    (ref.message topic key msg).Offset = 0 ∧
    (ref.message topic key msg).Partition = if ref.Partition > -1 then ref.Partition else 0 := by
  unfold SyncProducer.message
  split <;> simp [*]

theorem SendMsg_some (env : Env) (ref : SyncProducer) (topic : String) (key : Option Encoder)
    (v : Encoder) (w : World) :
    ref.SendMsg env topic key (some v) w =
      { world :=
          { w with
            calls := w.calls ++
              [Call.SendMessage ref.Producer (ref.message topic key (some v))
                (env.SendMessage w.calls ref.Producer (ref.message topic key (some v))).partition
                (env.SendMessage w.calls ref.Producer (ref.message topic key (some v))).offset
                (env.SendMessage w.calls ref.Producer (ref.message topic key (some v))).err] },
        pmsg := some
          { Topic := topic, Key := key, Value := some v, Metadata := none,
            Offset := (env.SendMessage w.calls ref.Producer (ref.message topic key (some v))).offset,
            Partition :=
              (env.SendMessage w.calls ref.Producer (ref.message topic key (some v))).partition },
        err := (env.SendMessage w.calls ref.Producer (ref.message topic key (some v))).err } := by
  unfold SyncProducer.SendMsg
  obtain ⟨h1, h2, h3, h4, _, _⟩ := message_fields ref topic key (some v)
  simp only [h1, h2, h3, h4]
  cases h : (env.SendMessage w.calls ref.Producer (ref.message topic key (some v))).err <;>
    simp [h]

theorem sent_append (l1 l2 : List Call) : sent (l1 ++ l2) = sent l1 ++ sent l2 := by
  induction l1 with
  | nil => simp [sent]
  | cons c rest ih => cases c <;> simp [sent, ih]

theorem closeCalls_append (l1 l2 : List Call) :
    closeCalls (l1 ++ l2) = closeCalls l1 + closeCalls l2 := by
  induction l1 with
  | nil => simp [closeCalls]
  | cons c rest ih => cases c <;> simp [closeCalls, ih] <;> omega

theorem step_closed (env : Env) (s : SyncProducer × World) (op : Op)
    (h : s.1.closed = true) : (step env s op).1.closed = true := by
  cases op <;> simp [step, h, Close_closed]

theorem run_closed (env : Env) (ops : List Op) (s : SyncProducer × World)
    (h : s.1.closed = true) : (run env ops s).1.closed = true := by
  induction ops generalizing s with
  | nil => simpa [run] using h
  | cons op rest ih =>
    have := ih (step env s op) (step_closed env s op h)
    simpa [run] using this

theorem leBytes_length (n x : Nat) : (md5.leBytes n x).length = n := by
  simp [md5.leBytes]

theorem leBytes_lt (n x : Nat) : ∀ b ∈ md5.leBytes n x, b < 256 := by
  intro b hb
  simp only [md5.leBytes, List.mem_map] at hb
  obtain ⟨i, -, rfl⟩ := hb
  exact Nat.mod_lt _ (by norm_num)

theorem Sum_length (data : List Nat) : (md5.Sum data).length = 16 := by
  simp [md5.Sum, leBytes_length]

theorem Sum_lt (data : List Nat) : ∀ b ∈ md5.Sum data, b < 256 := by
  intro b hb
  simp only [md5.Sum, List.mem_append] at hb
  rcases hb with ((hb | hb) | hb) | hb <;> exact leBytes_lt _ _ b hb

theorem fmtSbx_length (b : List Nat) : (fmtSbx b).length = 2 * b.length := by
  induction b with
  | nil => rfl
  | cons c rest ih =>
    simp only [fmtSbx, List.flatMap_cons, List.length_append, List.length_cons,
      List.length_nil] at ih ⊢
    omega

theorem ldigits_hex : ∀ i, i < 16 → ldigits.getD i 0 ∈ goString "0123456789abcdef" := by
  decide

theorem fmtSbx_hex (b : List Nat) (hb : ∀ x ∈ b, x < 256) :
    ∀ c ∈ fmtSbx b, c ∈ goString "0123456789abcdef" := by
  intro c hc
  simp only [fmtSbx, List.mem_flatMap, List.mem_cons, List.mem_singleton] at hc
  obtain ⟨x, hx, hc⟩ := hc
  have hx256 := hb x hx
  have h1 : x >>> 4 < 16 := by
    rw [Nat.shiftRight_eq_div_pow]
    omega
  have h2 : x &&& 0xF < 16 := by
    have : x &&& 0xF = x % 2 ^ 4 := Nat.and_pow_two_sub_one_eq_mod x 4
    rw [this]
    exact Nat.mod_lt _ (by norm_num)
  rcases hc with hc | hc | hc
  · rw [hc]; exact ldigits_hex _ h1
  · rw [hc]; exact ldigits_hex _ h2
  · simp at hc

theorem md5_hello :
    fmtSbx (md5.Sum (goString "hello")) = goString "5d41402abc4b2a76b9719d911017c592" := by
  decide!

theorem md5_empty : fmtSbx (md5.Sum []) = goString "d41d8cd98f00b204e9800998ecf8427e" := by
  decide!

theorem SendMsgByte_eq (env : Env) (ref : SyncProducer) (topic : String) (key msg : Bytes)
    (w : World) :
    ref.SendMsgByte env topic key msg w =
      ref.SendMsg env topic
        (some (Encoder.ByteEncoder
          (if key.isNone || len key == 0 then some (fmtSbx (md5.Sum (msg.getD []))) else key)))
        (some (Encoder.ByteEncoder msg)) w := by
  unfold SyncProducer.SendMsgByte
  split <;> rfl

theorem NewSyncProducer_config (env : Env) (config : Config) (wg : Option WaitGroupPtr)
    (w : World) (config2 : Config) (hvalid : env.ValidateSyncProducerConfig config = none)
    (hset : setProducerRequiredAcks
        (if config.RequiredAcks = RequiredAcks.AcksUnset then
          { config with RequiredAcks := RequiredAcks.WaitForAll }
        else config) = (config2, none)) :
    (NewSyncProducer env config wg w).config =
      { config2 with
        ProducerConfig :=
          { config2.ProducerConfig with
            Partitioner := some config2.Partitioner, ReturnSuccesses := true } } := by
  unfold NewSyncProducer
  simp only [hvalid, hset]
  split
  · rfl
  · split
    · rfl
    · cases wg <;> rfl

theorem NewSyncProducer_wg (env : Env) (config : Config) (p : WaitGroupPtr) (w : World) :
    (∀ e, (NewSyncProducer env config (some p) w).ret = .error e →
      (NewSyncProducer env config (some p) w).world.wg = w.wg) ∧
    (∀ sp, (NewSyncProducer env config (some p) w).ret = .ok sp →
      (NewSyncProducer env config (some p) w).world.wg = w.wg + 1 ∧
      sp.closed = false ∧ sp.xwg = some p ∧ sp.closeChannel = 0) := by
  rcases hv : env.ValidateSyncProducerConfig config with _ | e1
  · rcases hs : setProducerRequiredAcks
        (if config.RequiredAcks = RequiredAcks.AcksUnset then
          { config with RequiredAcks := RequiredAcks.WaitForAll }
        else config) with ⟨config2, _ | e2⟩
    · rcases hc : env.NewClient w.calls config2.Brokers
          { config2.ProducerConfig with
            Partitioner := some config2.Partitioner, ReturnSuccesses := true } with e3 | client
      · simp [NewSyncProducer, hv, hs, hc]
      · rcases hp : env.NewSyncProducerFromClient
            (w.calls ++
              [Call.NewClient config2.Brokers
                { config2.ProducerConfig with
                  Partitioner := some config2.Partitioner, ReturnSuccesses := true }
                (some client) none]) client with e4 | producer
        · simp [NewSyncProducer, hv, hs, hc, hp]
        · simp [NewSyncProducer, hv, hs, hc, hp]
    · simp [NewSyncProducer, hv, hs]
  · simp [NewSyncProducer, hv]

theorem SendMsg_wg (env : Env) (ref : SyncProducer) (topic : String) (key msg : Option Encoder)
    (w : World) : (ref.SendMsg env topic key msg w).world.wg = w.wg := by
  cases msg with
  | none => rfl
  | some v => rw [SendMsg_some]

theorem SendMsgByte_wg (env : Env) (ref : SyncProducer) (topic : String) (key msg : Bytes)
    (w : World) : (ref.SendMsgByte env topic key msg w).world.wg = w.wg := by
  rw [SendMsgByte_eq, SendMsg_wg]

theorem step_wg (env : Env) (s : SyncProducer × World) (op : Op) :
    (step env s op).1.xwg = s.1.xwg ∧
    (step env s op).1.closed = (s.1.closed || decide (op = Op.Close)) ∧
    (step env s op).2.wg =
      if s.1.closed = false ∧ op = Op.Close ∧ s.1.xwg.isSome then s.2.wg - 1 else s.2.wg := by
  cases op with
  | Close =>
    by_cases h : s.1.closed = true
    · simp [step, Close_of_closed env s.1 s.2 h, h]
    · have h2 : s.1.closed = false := by simpa using h
      obtain ⟨hsp, hw⟩ := Close_of_open env s.1 s.2 h2
      simp [step, hsp, hw, h2]
  | SendMsg topic key msg => simp [step, SendMsg_wg]
  | SendMsgByte topic key msg => simp [step, SendMsgByte_wg]
  | IsClosed => simp [step]

theorem run_wg (env : Env) (ops : List Op) (s : SyncProducer × World)
    (hx : s.1.xwg.isSome = true) :
    (run env ops s).2.wg =
      if s.1.closed = false ∧ Op.Close ∈ ops then s.2.wg - 1 else s.2.wg := by
  induction ops generalizing s with
  | nil => simp [run]
  | cons op rest ih =>
    obtain ⟨h1, h2, h3⟩ := step_wg env s op
    have hrun : run env (op :: rest) s = run env rest (step env s op) := by simp [run]
    rw [hrun, ih (step env s op) (by rw [h1]; exact hx), h2, h3]
    by_cases hc : s.1.closed = true
    · simp [hc]
    · have hc2 : s.1.closed = false := by simpa using hc
      by_cases hop : op = Op.Close
      · simp [hc2, hop, hx]
      · have hop2 : ¬ Op.Close = op := fun h => hop h.symm
        simp [hc2, hop, hop2]

theorem closedClients_append (l1 l2 : List Call) :
    closedClients (l1 ++ l2) = closedClients l1 ++ closedClients l2 := by
  induction l1 with
  | nil => simp [closedClients]
  | cons c rest ih => cases c <;> simp [closedClients, ih]

/-- `NewSyncProducer` never calls `Close` on a client, on any path. -/
theorem NewSyncProducer_never_closes (env : Env) (config : Config) (wg : Option WaitGroupPtr)
    (w : World) :
    closedClients (NewSyncProducer env config wg w).world.calls = closedClients w.calls := by
  rcases hv : env.ValidateSyncProducerConfig config with _ | e1
  · rcases hs : setProducerRequiredAcks
        (if config.RequiredAcks = RequiredAcks.AcksUnset then
          { config with RequiredAcks := RequiredAcks.WaitForAll }
        else config) with ⟨config2, _ | e2⟩
    · rcases hc : env.NewClient w.calls config2.Brokers
          { config2.ProducerConfig with
            Partitioner := some config2.Partitioner, ReturnSuccesses := true } with e3 | client
      · simp [NewSyncProducer, hv, hs, hc, closedClients_append, closedClients]
      · rcases hp : env.NewSyncProducerFromClient
            (w.calls ++
              [Call.NewClient config2.Brokers
                { config2.ProducerConfig with
                  Partitioner := some config2.Partitioner, ReturnSuccesses := true }
                (some client) none]) client with e4 | producer
        · simp [NewSyncProducer, hv, hs, hc, hp, closedClients_append, closedClients]
        · cases wg <;>
            simp [NewSyncProducer, hv, hs, hc, hp, closedClients_append, closedClients]
    · simp [NewSyncProducer, hv, hs]
  · simp [NewSyncProducer, hv]

/-- The close channel of a handle is closed exactly when the handle is marked closed, and
never more than once: the relation holds for a new handle and every call keeps it. -/
theorem step_closeChannel (env : Env) (s : SyncProducer × World) (op : Op)
    (h : s.1.closeChannel = if s.1.closed then 1 else 0) :
    (step env s op).1.closeChannel = if (step env s op).1.closed then 1 else 0 := by
  cases op with
  | Close =>
    by_cases hc : s.1.closed = true
    · simpa [step, Close_of_closed env s.1 s.2 hc, hc] using h
    · have h2 : s.1.closed = false := by simpa using hc
      obtain ⟨hsp, -⟩ := Close_of_open env s.1 s.2 h2
      simp [step, hsp, h, h2]
  | SendMsg topic key msg => simpa [step] using h
  | SendMsgByte topic key msg => simpa [step] using h
  | IsClosed => simpa [step] using h

theorem run_closeChannel (env : Env) (ops : List Op) (s : SyncProducer × World)
    (h : s.1.closeChannel = if s.1.closed then 1 else 0) :
    (run env ops s).1.closeChannel = if (run env ops s).1.closed then 1 else 0 := by
  induction ops generalizing s with
  | nil => simpa [run] using h
  | cons op rest ih =>
    have := ih (step env s op) (step_closeChannel env s op h)
    simpa [run] using this

/-- The wait-group counter never drops below its value before the construction, so the
decrement in `Close` never makes a non-negative counter negative. -/
theorem run_wg_ge (env env2 : Env) (config : Config) (p : WaitGroupPtr) (w : World)
    (sp : SyncProducer) (ops : List Op)
    (h : (NewSyncProducer env config (some p) w).ret = .ok sp) :
    w.wg ≤ (run env2 ops (sp, (NewSyncProducer env config (some p) w).world)).2.wg := by
  obtain ⟨hwg, hclosed, hx, -⟩ := (NewSyncProducer_wg env config p w).2 sp h
  rw [run_wg env2 ops _ (by simp [hx])]
  split <;> simp [hwg]

/-! ## Close -/

/-- C1. Close is idempotent.  Take any handle, call `Close` on it once (with any library
behaviour, whatever that call returns), then perform any further calls `ops` on the handle.
In the resulting state `s` the handle is closed, and one more `Close` returns nil and
changes nothing: the handle (closed flag, close channel) and the world (wait-group
counter, trace of library calls) are exactly what they were. -/
theorem Close_idempotent (env env2 env3 : Env) (ref : SyncProducer) (w : World)
    (ops : List Op) (s : SyncProducer × World)
    (hs : s = run env2 ops (step env (ref, w) Op.Close)) :
    s.1.closed = true ∧
    s.1.Close env3 s.2 = { sp := s.1, world := s.2, err := none } ∧
    (s.1.Close env3 s.2).err = none ∧
    (s.1.Close env3 s.2).sp.closed = true ∧
    (s.1.Close env3 s.2).sp.closeChannel = s.1.closeChannel ∧
    (s.1.Close env3 s.2).world.wg = s.2.wg ∧
    (s.1.Close env3 s.2).world.calls = s.2.calls ∧
    closeCalls (s.1.Close env3 s.2).world.calls = closeCalls s.2.calls := by
  have hc : s.1.closed = true := by
    rw [hs]
    apply run_closed
    simp [step, Close_closed]
  have he := Close_of_closed env3 s.1 s.2 hc
  refine ⟨hc, he, ?_, ?_, ?_, ?_, ?_, ?_⟩ <;> simp [he, hc]

/-- Witness for C1: the first `Close` fails in the producer, a send follows, and the
second and third `Close` change nothing. -/
theorem Close_idempotent_witness :
    (run envOK [Op.SendMsg "t" none (some (Encoder.StringEncoder "v")), Op.Close]
        (step envProducerCloseFails (sp0, w1) Op.Close)).1.closed = true ∧
    ((run envOK [Op.SendMsg "t" none (some (Encoder.StringEncoder "v")), Op.Close]
        (step envProducerCloseFails (sp0, w1) Op.Close)).1.Close envOK
      (run envOK [Op.SendMsg "t" none (some (Encoder.StringEncoder "v")), Op.Close]
        (step envProducerCloseFails (sp0, w1) Op.Close)).2).err = none :=
  ⟨(Close_idempotent envProducerCloseFails envOK envOK sp0 w1
      [Op.SendMsg "t" none (some (Encoder.StringEncoder "v")), Op.Close] _ rfl).1,
    (Close_idempotent envProducerCloseFails envOK envOK sp0 w1
      [Op.SendMsg "t" none (some (Encoder.StringEncoder "v")), Op.Close] _ rfl).2.2.1⟩

/-- C2. A close error never prevents the terminal transition.  For every open handle,
whatever the library answers, after `Close` the handle is closed, exactly one `close` was
executed on the close channel, and `WaitForClose` returns.  If the producer's `Close`
returns an error `e`, `Close` returns `e`; if the producer closes and the client's `Close`
returns an error `e`, `Close` returns `e`. -/
theorem Close_error_terminal (env : Env) (ref : SyncProducer) (w : World)
    (hopen : ref.closed = false) :
    (ref.Close env w).sp.IsClosed = true ∧
    (ref.Close env w).sp.closeChannel = ref.closeChannel + 1 ∧
    (ref.Close env w).sp.WaitForClose = some () ∧
    (∀ e, env.ProducerClose w.calls ref.Producer = some e →
      (ref.Close env w).err = some e) ∧
    (∀ e, env.ProducerClose w.calls ref.Producer = none →
      env.ClientClose (w.calls ++ [Call.ProducerClose ref.Producer none]) ref.Client = some e →
      (ref.Close env w).err = some e) := by
  obtain ⟨hsp, -⟩ := Close_of_open env ref w hopen
  refine ⟨?_, ?_, ?_, ?_, ?_⟩
  · simp [SyncProducer.IsClosed, hsp]
  · simp [hsp]
  · simp [SyncProducer.WaitForClose, hsp]
  · intro e he
    simp [SyncProducer.Close, hopen, he, deferred_err]
  · intro e hp hc
    simp [SyncProducer.Close, hopen, hp, hc, deferred_err]

/-- Witness for C2: the producer refuses to close; `Close` returns that error, the handle
is closed and its channel has been closed once. -/
theorem Close_error_terminal_witness :
    sp0.closed = false ∧
    envProducerCloseFails.ProducerClose w1.calls sp0.Producer = some "producer close failed" ∧
    (sp0.Close envProducerCloseFails w1).err = some "producer close failed" ∧
    (sp0.Close envProducerCloseFails w1).sp.IsClosed = true ∧
    (sp0.Close envProducerCloseFails w1).sp.closeChannel = 1 ∧
    (sp0.Close envProducerCloseFails w1).sp.WaitForClose = some () :=
  ⟨rfl, rfl,
    (Close_error_terminal envProducerCloseFails sp0 w1 rfl).2.2.2.1 _ rfl,
    (Close_error_terminal envProducerCloseFails sp0 w1 rfl).1,
    (Close_error_terminal envProducerCloseFails sp0 w1 rfl).2.1,
    (Close_error_terminal envProducerCloseFails sp0 w1 rfl).2.2.1⟩

/-! ## SendMsg -/

/-- C6. Nil value rejection.  `SendMsg(topic, key, nil)` returns a nil outcome with the
error "nil message can not be sent" and leaves the world untouched, so no record reaches
`SendMessage`; for a non-nil value the trace grows by exactly one call, a `SendMessage`
on the producer of the handle. -/
theorem SendMsg_nil_rejected (env : Env) (ref : SyncProducer) (topic : String)
    (key : Option Encoder) (w : World) :
    ref.SendMsg env topic key none w =
      { world := w, pmsg := none, err := some "nil message can not be sent" } ∧
    sent (ref.SendMsg env topic key none w).world.calls = sent w.calls ∧
    ∀ v : Encoder,
      (ref.SendMsg env topic key (some v) w).world.calls =
        w.calls ++ [Call.SendMessage ref.Producer (ref.message topic key (some v))
          (env.SendMessage w.calls ref.Producer (ref.message topic key (some v))).partition
          (env.SendMessage w.calls ref.Producer (ref.message topic key (some v))).offset
          (env.SendMessage w.calls ref.Producer (ref.message topic key (some v))).err] ∧
      sent (ref.SendMsg env topic key (some v) w).world.calls =
        sent w.calls ++ [ref.message topic key (some v)] := by
  refine ⟨rfl, rfl, ?_⟩
  intro v
  rw [SendMsg_some, sent_append]
  simp [sent]

/-- C8. Send failure is reported with its record.  For a non-nil value `v`, let `a` be
what the producer's `SendMessage` answers for the record built from the inputs.  `SendMsg`
returns a non-nil outcome with the given topic, key and value and with the partition and
offset of `a`; the trace grows by that single `SendMessage` call; if `a` carries an error
`e` then `SendMsg` returns exactly `e`, and if `a` carries none then `SendMsg` returns a
nil error. -/
theorem SendMsg_reports (env : Env) (ref : SyncProducer) (topic : String)
    (key : Option Encoder) (v : Encoder) (w : World) (a : sarama.SendAnswer)
    (ha : a = env.SendMessage w.calls ref.Producer (ref.message topic key (some v))) :
    (ref.SendMsg env topic key (some v) w).pmsg =
      some { Topic := topic, Key := key, Value := some v, Metadata := none,
             Offset := a.offset, Partition := a.partition } ∧
    (ref.SendMsg env topic key (some v) w).world.calls =
      w.calls ++ [Call.SendMessage ref.Producer (ref.message topic key (some v))
        a.partition a.offset a.err] ∧
    (∀ e, a.err = some e → (ref.SendMsg env topic key (some v) w).err = some e) ∧
    (a.err = none → (ref.SendMsg env topic key (some v) w).err = none) := by
  subst ha
  rw [SendMsg_some]
  exact ⟨rfl, rfl, fun e he => he, fun he => he⟩

/-- Witness for C8: the producer answers partition -1, offset -1 and "send failed". -/
theorem SendMsg_reports_witness :
    (sp0.SendMsg envSendFails "t" (some (Encoder.StringEncoder "k"))
        (some (Encoder.StringEncoder "v")) w1).pmsg =
      some { Topic := "t", Key := some (Encoder.StringEncoder "k"),
             Value := some (Encoder.StringEncoder "v"), Metadata := none,
             Offset := -1, Partition := -1 } ∧
    (sp0.SendMsg envSendFails "t" (some (Encoder.StringEncoder "k"))
        (some (Encoder.StringEncoder "v")) w1).err = some "send failed" :=
  ⟨(SendMsg_reports envSendFails sp0 "t" (some (Encoder.StringEncoder "k"))
      (Encoder.StringEncoder "v") w1 _ rfl).1,
    (SendMsg_reports envSendFails sp0 "t" (some (Encoder.StringEncoder "k"))
      (Encoder.StringEncoder "v") w1 _ rfl).2.2.1 _ rfl⟩

/-- C4, as stated, fails.  `NewSyncProducer` builds the handle `sp3` from a
configuration with partition override 3 and the hash partitioner; a send on it succeeds,
the producer reports partition 0, and the returned outcome carries partition 0, not 3. -/
theorem SendMsg_partition_counterexample :
    (NewSyncProducer envOK cfg3 none w0).ret = .ok sp3 ∧
    0 ≤ sp3.Partition ∧
    (sp3.SendMsg envOK "t" (some (Encoder.StringEncoder "k"))
        (some (Encoder.StringEncoder "v")) w1).err = none ∧
    ∃ pm, (sp3.SendMsg envOK "t" (some (Encoder.StringEncoder "k"))
        (some (Encoder.StringEncoder "v")) w1).pmsg = some pm ∧
      pm.Partition = 0 ∧ pm.Partition ≠ sp3.Partition := by
  refine ⟨rfl, by decide, rfl, _, rfl, rfl, by decide⟩

/-- C4, amended.  For a handle whose partition override is at least 0 and a non-nil
value, the record handed to the producer's `SendMessage` carries the override in its
`Partition` field, and the returned outcome carries the partition the producer answered:
the outcome's partition equals the override exactly when the producer answers the
override. -/
theorem SendMsg_partition_override (env : Env) (ref : SyncProducer) (topic : String)
    (key : Option Encoder) (v : Encoder) (w : World) (h : 0 ≤ ref.Partition) :
    (ref.message topic key (some v)).Partition = ref.Partition ∧
    sent (ref.SendMsg env topic key (some v) w).world.calls =
      sent w.calls ++ [ref.message topic key (some v)] ∧
    ∃ pm, (ref.SendMsg env topic key (some v) w).pmsg = some pm ∧
      pm.Partition =
        (env.SendMessage w.calls ref.Producer (ref.message topic key (some v))).partition ∧
      (pm.Partition = ref.Partition ↔
        (env.SendMessage w.calls ref.Producer (ref.message topic key (some v))).partition =
          ref.Partition) := by
  have hp : (ref.message topic key (some v)).Partition = ref.Partition := by
    have := (message_fields ref topic key (some v)).2.2.2.2.2
    rw [this, if_pos (by omega)]
  refine ⟨hp, ?_, ?_⟩
  · rw [SendMsg_some, sent_append]
    simp [sent]
  · rw [SendMsg_some]
    exact ⟨_, rfl, rfl, Iff.rfl⟩

/-- Witness for C4 amended: override 3, the record handed over carries partition 3. -/
theorem SendMsg_partition_override_witness :
    0 ≤ sp3.Partition ∧
    (sp3.message "t" none (some (Encoder.StringEncoder "v"))).Partition = 3 :=
  ⟨by decide,
    (SendMsg_partition_override envOK sp3 "t" none (Encoder.StringEncoder "v") w1
      (by decide)).1⟩

/-! ## SendMsgByte -/

/-- C3. Empty-key derivation.  For every topic and every non-empty value `V`,
`SendMsgByte(topic, key, V)` with `key` nil or of length 0 hands the producer exactly one
record `m`; its topic is `topic`, its value is `V`, and its key is the `%x` rendering of
`md5.Sum(V)`, which has exactly 32 characters, all of them among `0123456789abcdef`.  For
`V = "hello"` that key is `5d41402abc4b2a76b9719d911017c592`. -/
theorem SendMsgByte_empty_key (env : Env) (ref : SyncProducer) (topic : String)
    (key : Bytes) (V : List Nat) (w : World) (_hV : V ≠ [])
    (hkey : key = none ∨ key = some []) :
    (∃ m, sent (ref.SendMsgByte env topic key (some V) w).world.calls = sent w.calls ++ [m] ∧
      m.Topic = topic ∧
      m.Value = some (Encoder.ByteEncoder (some V)) ∧
      m.Key = some (Encoder.ByteEncoder (some (fmtSbx (md5.Sum V))))) ∧
    (fmtSbx (md5.Sum V)).length = 32 ∧
    (∀ c ∈ fmtSbx (md5.Sum V), c ∈ goString "0123456789abcdef") ∧
    (V = goString "hello" →
      fmtSbx (md5.Sum V) = goString "5d41402abc4b2a76b9719d911017c592") := by
  have hk : (key.isNone || len key == 0) = true := by
    rcases hkey with h | h <;> simp [h, len]
  refine ⟨⟨ref.message topic (some (Encoder.ByteEncoder (some (fmtSbx (md5.Sum V)))))
      (some (Encoder.ByteEncoder (some V))), ?_, ?_, ?_, ?_⟩, ?_, ?_, ?_⟩
  · rw [SendMsgByte_eq, SendMsg_some, sent_append]
    simp [sent, hk]
  · exact (message_fields _ _ _ _).1
  · exact (message_fields _ _ _ _).2.2.1
  · exact (message_fields _ _ _ _).2.1
  · rw [fmtSbx_length, Sum_length]
  · exact fmtSbx_hex _ (Sum_lt V)
  · intro h
    rw [h]
    exact md5_hello

/-- Witness for C3: value "hello" with a nil key; the record handed to the producer has
the key `5d41402abc4b2a76b9719d911017c592`. -/
theorem SendMsgByte_empty_key_witness :
    goString "hello" ≠ [] ∧ ((none : Bytes) = none ∨ (none : Bytes) = some []) ∧
    (fmtSbx (md5.Sum (goString "hello"))).length = 32 ∧
    fmtSbx (md5.Sum (goString "hello")) = goString "5d41402abc4b2a76b9719d911017c592" :=
  ⟨by decide, Or.inl rfl,
    (SendMsgByte_empty_key envOK sp0 "t" none (goString "hello") w1 (by decide)
      (Or.inl rfl)).2.1,
    (SendMsgByte_empty_key envOK sp0 "t" none (goString "hello") w1 (by decide)
      (Or.inl rfl)).2.2.2 rfl⟩

/-- C10. `SendMsgByte` never takes the nil-value rejection branch.  For every topic, key
and value (nil and empty included) the value is wrapped in a non-nil `ByteEncoder`, the
trace grows by exactly one `SendMessage` call, the outcome is non-nil, and the returned
error is the one the producer answered for that call.  For a nil or empty value with a nil
or empty key the record carries the key `d41d8cd98f00b204e9800998ecf8427e`. -/
theorem SendMsgByte_always_sends (env : Env) (ref : SyncProducer) (topic : String)
    (key msg : Bytes) (w : World) :
    ∃ m : sarama.ProducerMessage,
      m.Topic = topic ∧
      m.Value = some (Encoder.ByteEncoder msg) ∧
      (ref.SendMsgByte env topic key msg w).world.calls =
        w.calls ++ [Call.SendMessage ref.Producer m
          (env.SendMessage w.calls ref.Producer m).partition
          (env.SendMessage w.calls ref.Producer m).offset
          (env.SendMessage w.calls ref.Producer m).err] ∧
      (ref.SendMsgByte env topic key msg w).err = (env.SendMessage w.calls ref.Producer m).err ∧
      (ref.SendMsgByte env topic key msg w).pmsg ≠ none ∧
      ((key = none ∨ key = some []) → (msg = none ∨ msg = some []) →
        m.Key = some (Encoder.ByteEncoder
          (some (goString "d41d8cd98f00b204e9800998ecf8427e")))) := by
  refine ⟨ref.message topic
      (some (Encoder.ByteEncoder
        (if key.isNone || len key == 0 then some (fmtSbx (md5.Sum (msg.getD []))) else key)))
      (some (Encoder.ByteEncoder msg)), ?_, ?_, ?_, ?_, ?_, ?_⟩
  · exact (message_fields _ _ _ _).1
  · exact (message_fields _ _ _ _).2.2.1
  · rw [SendMsgByte_eq, SendMsg_some]
  · rw [SendMsgByte_eq, SendMsg_some]
  · rw [SendMsgByte_eq, SendMsg_some]
    simp
  · intro hkey hmsg
    have hk : (key.isNone || len key == 0) = true := by
      rcases hkey with h | h <;> simp [h, len]
    have hm : msg.getD [] = [] := by
      rcases hmsg with h | h <;> simp [h]
    rw [(message_fields _ _ _ _).2.1, hk, hm, md5_empty]
    simp

/-! ## NewSyncProducer -/

/-- C9. Acknowledgement selection.  For a configuration that passes validation,
`NewSyncProducer` leaves the native required-acks value 0 for `NoResponse`, 1 for
`WaitForLocal` and -1 for `WaitForAll`; `AcksUnset` is replaced by `WaitForAll` in the
configuration and the native value is -1.  For any other mode `setProducerRequiredAcks`
returns an error and changes nothing, and `NewSyncProducer` returns the error "invalid
RequiredAcks field in config" with the configuration and the world untouched, so no
broker client was opened. -/
theorem NewSyncProducer_acks (env : Env) (config : Config) (wg : Option WaitGroupPtr)
    (w : World) (hvalid : env.ValidateSyncProducerConfig config = none) :
    (config.RequiredAcks = RequiredAcks.NoResponse →
      (NewSyncProducer env config wg w).config.RequiredAcks = RequiredAcks.NoResponse ∧
      (NewSyncProducer env config wg w).config.ProducerConfig.RequiredAcks = 0) ∧
    (config.RequiredAcks = RequiredAcks.WaitForLocal →
      (NewSyncProducer env config wg w).config.RequiredAcks = RequiredAcks.WaitForLocal ∧
      (NewSyncProducer env config wg w).config.ProducerConfig.RequiredAcks = 1) ∧
    (config.RequiredAcks = RequiredAcks.WaitForAll →
      (NewSyncProducer env config wg w).config.RequiredAcks = RequiredAcks.WaitForAll ∧
      (NewSyncProducer env config wg w).config.ProducerConfig.RequiredAcks = -1) ∧
    (config.RequiredAcks = RequiredAcks.AcksUnset →
      (NewSyncProducer env config wg w).config.RequiredAcks = RequiredAcks.WaitForAll ∧
      (NewSyncProducer env config wg w).config.ProducerConfig.RequiredAcks = -1) ∧
    (∀ tag, config.RequiredAcks = RequiredAcks.unknown tag →
      setProducerRequiredAcks config = (config, some "Invalid RequiredAcks type") ∧
      (NewSyncProducer env config wg w).config = config ∧
      (NewSyncProducer env config wg w).ret = .error "invalid RequiredAcks field in config" ∧
      (NewSyncProducer env config wg w).world = w) := by
  refine ⟨?_, ?_, ?_, ?_, ?_⟩
  · intro h
    rw [NewSyncProducer_config env config wg w _ hvalid
      (by simp [h, setProducerRequiredAcks]; rfl)]
    simp [h, sarama.NoResponse]
  · intro h
    rw [NewSyncProducer_config env config wg w _ hvalid
      (by simp [h, setProducerRequiredAcks]; rfl)]
    simp [h, sarama.WaitForLocal]
  · intro h
    rw [NewSyncProducer_config env config wg w _ hvalid
      (by simp [h, setProducerRequiredAcks]; rfl)]
    simp [h, sarama.WaitForAll]
  · intro h
    rw [NewSyncProducer_config env config wg w _ hvalid
      (by simp [h, setProducerRequiredAcks]; rfl)]
    simp [sarama.WaitForAll]
  · intro tag h
    refine ⟨?_, ?_, ?_, ?_⟩ <;>
      simp [NewSyncProducer, hvalid, h, setProducerRequiredAcks]

/-- Witness for C9: unset acks become `WaitForAll` with native value -1, and an acks
value outside the named constants fails the construction before any library call. -/
theorem NewSyncProducer_acks_witness :
    envOK.ValidateSyncProducerConfig cfg0 = none ∧
    (NewSyncProducer envOK cfg0 none w0).config.RequiredAcks = RequiredAcks.WaitForAll ∧
    (NewSyncProducer envOK cfg0 none w0).config.ProducerConfig.RequiredAcks = -1 ∧
    (NewSyncProducer envOK cfgBadAcks none w0).world = w0 :=
  ⟨rfl,
    ((NewSyncProducer_acks envOK cfg0 none w0 rfl).2.2.2.1 rfl).1,
    ((NewSyncProducer_acks envOK cfg0 none w0 rfl).2.2.2.1 rfl).2,
    ((NewSyncProducer_acks envOK cfgBadAcks none w0 rfl).2.2.2.2 5 rfl).2.2.2⟩

/-- C5 fails on the code.  The client opens, building the producer from it fails, and
`NewSyncProducer` returns that error: the trace holds the two construction calls and no
`Close` on the client that was opened. -/
theorem NewSyncProducer_leaks_client :
    (NewSyncProducer envProducerFails cfg0 none w0).ret =
      .error "producer construction failed" ∧
    openedClients (NewSyncProducer envProducerFails cfg0 none w0).world.calls = [{ id := 1 }] ∧
    closedClients (NewSyncProducer envProducerFails cfg0 none w0).world.calls = [] ∧
    closeCalls (NewSyncProducer envProducerFails cfg0 none w0).world.calls = 0 :=
  ⟨rfl, rfl, rfl, rfl⟩

/-- C7. Wait-group balance.  With a non-nil wait-group, a failed construction leaves the
counter unchanged and a successful one adds exactly 1.  After any sequence of calls on
the new handle, with any library behaviour, the counter is back at its value before the
construction as soon as the sequence contains a `Close`, however many `Close` calls follow
and whatever they return; without a `Close` it stays one above. -/
theorem waitgroup_balance (env : Env) (config : Config) (p : WaitGroupPtr) (w : World) :
    (∀ e, (NewSyncProducer env config (some p) w).ret = .error e →
      (NewSyncProducer env config (some p) w).world.wg = w.wg) ∧
    (∀ sp, (NewSyncProducer env config (some p) w).ret = .ok sp →
      (NewSyncProducer env config (some p) w).world.wg = w.wg + 1 ∧
      ∀ (env2 : Env) (ops : List Op),
        (run env2 ops (sp, (NewSyncProducer env config (some p) w).world)).2.wg =
          if Op.Close ∈ ops then w.wg else w.wg + 1) := by
  obtain ⟨herr, hok⟩ := NewSyncProducer_wg env config p w
  refine ⟨herr, ?_⟩
  intro sp hsp
  obtain ⟨hwg, hclosed, hx, -⟩ := hok sp hsp
  refine ⟨hwg, ?_⟩
  intro env2 ops
  rw [run_wg env2 ops _ (by simp [hx])]
  by_cases hc : Op.Close ∈ ops
  · simp [hc, hclosed, hwg]
  · simp [hc, hwg]

/-- Witness for C7: construction succeeds with counter 0 going to 1; closing twice around
a send, with a producer that refuses to close, brings it back to 0. -/
theorem waitgroup_balance_witness :
    (NewSyncProducer envOK cfg0 (some WaitGroupPtr.caller) w0).ret = .ok spWg ∧
    (NewSyncProducer envOK cfg0 (some WaitGroupPtr.caller) w0).world.wg = 1 ∧
    (run envProducerCloseFails
        [Op.Close, Op.SendMsgByte "t" none (some [1]), Op.Close]
        (spWg, (NewSyncProducer envOK cfg0 (some WaitGroupPtr.caller) w0).world)).2.wg = 0 :=
  ⟨rfl,
    ((waitgroup_balance envOK cfg0 WaitGroupPtr.caller w0).2 spWg rfl).1,
    ((waitgroup_balance envOK cfg0 WaitGroupPtr.caller w0).2 spWg rfl).2 envProducerCloseFails
      [Op.Close, Op.SendMsgByte "t" none (some [1]), Op.Close]⟩

end KafkaClient
